import Mathlib

/-!
Shallow embedding of the order lifecycle of the restomanagerke repository:
the Order schema hooks (order-number generation before validation, total
recomputation before save) and the order routes (create, track, status
patch, payment patch), together with the collaborating stores (menu
catalog, customers, notifications).

Sources embedded:
  - Order model: order item schema, order schema, pre-validate hook that
    generates the order number, pre-save hook that recomputes totals.
  - routes/orders.js: POST / (createOrder), GET /track/:orderNumber,
    PATCH /:id/status, PATCH /:id/payment.

Monetary amounts and quantities are modelled as natural numbers: the code
performs only addition and multiplication on them. Dates are modelled as
explicit year/month/day parts plus an abstract clock value for timestamps.
Asynchronous persistence is modelled as explicit state passing on a DB
record; a thrown notification-storage error is modelled by a Boolean
parameter selecting the catch branch of the route handler.
-/

namespace Resto

/-- A line item as stored inside an order (orderItemSchema). -/
structure OrderItem where
  menuItemId : Nat
  name : String
  quantity : Nat
  price : Nat
  subtotal : Nat
  deriving Repr, DecidableEq

/-- Structured delivery address (orderSchema.deliveryAddress). Absent
subfields are modelled as the empty string, which is falsy in the source
language. -/
structure DeliveryAddress where
  street : String
  city : String
  landmark : String
  instructions : String
  deriving Repr, DecidableEq

/-- An order document (orderSchema). `id` is the opaque storage key;
`orderNumber` is `none` until the pre-validate hook assigns it. -/
structure Order where
  id : Nat
  orderNumber : Option String
  userId : Nat
  customerId : Nat
  customerName : String
  customerPhone : String
  customerEmail : String
  items : List OrderItem
  subtotal : Nat
  total : Nat
  orderType : String
  deliveryAddress : Option DeliveryAddress
  paymentMethod : String
  paymentStatus : String
  mpesaCheckoutId : Option String
  mpesaReceipt : Option String
  orderStatus : String
  notes : String
  createdAt : Nat
  updatedAt : Nat
  deriving Repr, DecidableEq

/-- A menu catalog entry, restricted to the fields the order routes read
(menuItemSchema: name, price, available). -/
structure MenuItem where
  id : Nat
  name : String
  price : Nat
  available : Bool
  deriving Repr, DecidableEq

/-- A customer record, restricted to the fields the order routes touch
(customerSchema: name, phone, email, running stats). -/
structure Customer where
  id : Nat
  name : String
  phone : String
  email : String
  totalOrders : Nat
  totalSpent : Nat
  lastOrderDate : Option Nat
  deriving Repr, DecidableEq

/-- Modelled from the spec: the Notification event record
(models/Notification.js is not among the provided sources; the spec gives
title, message, type in the set info, success, warning, error, a read flag
defaulting to false, and createdAt). -/
structure Notification where
  title : String
  message : String
  type : String
  read : Bool
  createdAt : Nat
  deriving Repr, DecidableEq

/-- The persistent store visible to the order routes. -/
structure DB where
  orders : List Order
  catalog : List MenuItem
  customers : List Customer
  notifications : List Notification
  nextId : Nat
  deriving Repr, DecidableEq

/-- Calendar parts of the current date, as read off the Date object. -/
structure DateParts where
  year : Nat
  month : Nat
  day : Nat
  deriving Repr, DecidableEq

/-- padStart of the source language on digit strings: left-pad with the
given character up to the target length, never truncating. -/
def padStart (w : Nat) (c : Char) (s : String) : String :=
  String.mk (List.replicate (w - s.data.length) c ++ s.data)

/-- slice(-2) of the source language on an ASCII string: the last two
characters. -/
def takeLast2 (s : String) : String :=
  String.mk (s.data.drop (s.data.length - 2))

/-- Order-number generation from the pre-validate hook: ORD, then the last
two digits of the year, two-digit month and day, then countDocuments()+1
left-padded with zeros to width four. -/
def genOrderNumber (d : DateParts) (count : Nat) : String :=
  "ORD" ++ takeLast2 (toString d.year)
        ++ padStart 2 '0' (toString d.month)
        ++ padStart 2 '0' (toString d.day)
        ++ padStart 4 '0' (toString (count + 1))

/-- The pre-validate hook: assign an order number only when the document
has none; `count` is countDocuments() at hook time. -/
def preValidate (d : DateParts) (count : Nat) (o : Order) : Order :=
  match o.orderNumber with
  | some _ => o
  | none => { o with orderNumber := some (genOrderNumber d count) }

/-- Running sum of line subtotals, as the reduce with initial value 0. -/
def sumSubtotals (items : List OrderItem) : Nat :=
  items.foldl (fun acc it => acc + it.subtotal) 0

/-- The pre-save hook: when items is nonempty, recompute every line
subtotal as quantity times price, recompute subtotal as their sum and set
total to subtotal; always refresh updatedAt. -/
def preSave (now : Nat) (o : Order) : Order :=
  if o.items.length > 0 then
    let items := o.items.map (fun it => { it with subtotal := it.quantity * it.price })
    let sub := sumSubtotals items
    { o with items := items, subtotal := sub, total := sub, updatedAt := now }
  else
    { o with updatedAt := now }

/-- Saving a document runs the pre-validate hook, then the pre-save hook.
`count` is countDocuments() at validate time. -/
def saveHooks (d : DateParts) (now : Nat) (count : Nat) (o : Order) : Order :=
  preSave now (preValidate d count o)

/-- findById against the menu catalog. -/
def findMenuItem (db : DB) (mid : Nat) : Option MenuItem :=
  db.catalog.find? (fun m => m.id = mid)

/-- findById against the customer store. -/
def findCustomer (db : DB) (cid : Nat) : Option Customer :=
  db.customers.find? (fun c => c.id = cid)

/-- findById against the order store. -/
def findOrderById (db : DB) (oid : Nat) : Option Order :=
  db.orders.find? (fun o => o.id = oid)

/-- findOne by orderNumber against the order store. -/
def findOrderByNumber (db : DB) (num : String) : Option Order :=
  db.orders.find? (fun o => o.orderNumber = some num)

/-- One entry of the request items array: menuItemId may be absent, and a
quantity of 0 models the falsy values (absent or zero) of the source. -/
structure OrderReq where
  menuItemId : Option Nat
  quantity : Nat
  deriving Repr, DecidableEq

/-- The POST /orders request body. Absent fields are `none`. -/
structure CreateOrderBody where
  items : Option (List OrderReq)
  orderType : Option String
  paymentMethod : Option String
  deliveryAddress : Option DeliveryAddress
  notes : Option String
  mpesaCheckoutId : Option String
  deriving Repr, DecidableEq

/-- Result of the create-order route: HTTP status, message of the JSON
body, and the saved order when the response echoes one. -/
structure CreateResult where
  status : Nat
  message : String
  order : Option Order
  deriving Repr, DecidableEq

/-- The value of `x || dflt` for an optional string, with the empty string
falsy as in the source language. -/
def orElseStr (v : Option String) (dflt : String) : String :=
  match v with
  | none => dflt
  | some s => if s = "" then dflt else s

/-- An optional string kept only when truthy, as in `if (x) { ... = x }`. -/
def keepTruthy (v : Option String) : Option String :=
  match v with
  | none => none
  | some s => if s = "" then none else some s

/-- The per-item validation and lookup loop of the create-order route:
each entry must carry a menuItemId and a truthy quantity, the id must
resolve in the catalog, and the item must be available; on success the
line item snapshots the catalog name and price and stores
price * quantity as its subtotal. Every failure is an HTTP 400 message. -/
def buildOrderItems (db : DB) : List OrderReq → Except String (List OrderItem)
  | [] => .ok []
  | r :: rs =>
    if r.menuItemId.isNone || r.quantity == 0 then
      .error "Each item must have menuItemId and quantity"
    else
      match r.menuItemId with
      | none => .error "Each item must have menuItemId and quantity"
      | some mid =>
        match findMenuItem db mid with
        | none => .error ("Item with ID " ++ toString mid ++ " not found")
        | some mi =>
          if !mi.available then
            .error (mi.name ++ " is not available")
          else
            match buildOrderItems db rs with
            | .error e => .error e
            | .ok rest =>
              .ok ({ menuItemId := mi.id, name := mi.name, quantity := r.quantity,
                     price := mi.price, subtotal := mi.price * r.quantity } :: rest)

/-- The truthiness check of the delivery-address guard: the address and
its street and city must all be present and nonempty. -/
def deliveryAddrValid (a : Option DeliveryAddress) : Bool :=
  match a with
  | none => false
  | some addr => addr.street != "" && addr.city != ""

/-- Render the items list of a notification message, as
quantity x name joined by commas. -/
def itemsListText (items : List OrderItem) : String :=
  String.intercalate ", " (items.map (fun it => toString it.quantity ++ "x " ++ it.name))

/-- Decimal rendering of an amount in a notification message
(toLocaleString digit grouping is not modelled; no claim reads it). -/
def amountText (n : Nat) : String :=
  toString n

/-- The orderData object assembled by the create-order route before the
save call: snapshot of customer identity, validated line items, computed
totals (total equal to subtotal, no tax), defaulted orderType and
paymentMethod, initial Pending statuses, and no order number yet. -/
def orderDataOf (db : DB) (customer : Customer) (orderItems : List OrderItem)
    (body : CreateOrderBody) (now : Nat) : Order :=
  { id := db.nextId
    orderNumber := none
    userId := customer.id
    customerId := customer.id
    customerName := customer.name
    customerPhone := customer.phone
    customerEmail := customer.email
    items := orderItems
    subtotal := sumSubtotals orderItems
    total := sumSubtotals orderItems
    orderType := orElseStr body.orderType "takeaway"
    deliveryAddress :=
      if body.orderType == some "delivery" then body.deliveryAddress else none
    paymentMethod := orElseStr body.paymentMethod "M-PESA"
    paymentStatus := "Pending"
    mpesaCheckoutId := keepTruthy body.mpesaCheckoutId
    mpesaReceipt := none
    orderStatus := "Pending"
    notes := (body.notes).getD ""
    createdAt := now
    updatedAt := now }

/-- Tail of the create-order route after validation: save the order
(running both schema hooks with countDocuments() equal to the number of
stored orders), bump the customer stats, then create the notification;
when the notification throws, the catch block answers 500 although the
order and customer writes are already persisted. -/
def persistOrder (d : DateParts) (now : Nat) (notifyOk : Bool)
    (db : DB) (customer : Customer) (o : Order) : CreateResult × DB :=
  let saved := saveHooks d now db.orders.length o
  let db1 : DB :=
    { db with orders := db.orders ++ [saved], nextId := db.nextId + 1 }
  let customer2 : Customer :=
    { customer with
        totalOrders := customer.totalOrders + 1
        totalSpent := customer.totalSpent + saved.total
        lastOrderDate := some now }
  let db2 : DB :=
    { db1 with customers :=
        db1.customers.map (fun c => if c.id = customer.id then customer2 else c) }
  if notifyOk then
    let notif : Notification :=
      { title := "🆕 New Order"
        message := "Order #" ++ (saved.orderNumber).getD "" ++ " from "
            ++ saved.customerName ++ "\nItems: " ++ itemsListText saved.items
            ++ "\nTotal: KES " ++ amountText saved.total
        type := "success", read := false, createdAt := now }
    ({ status := 201, message := "Order created successfully", order := some saved },
     { db2 with notifications := db2.notifications ++ [notif] })
  else
    ({ status := 500, message := "Failed to create order", order := none }, db2)

/-- POST /orders. `d`/`now` are the current date and clock, `notifyOk`
selects whether Notification.create succeeds or throws (storage outage). -/
def createOrder (d : DateParts) (now : Nat) (notifyOk : Bool)
    (db : DB) (userId : Nat) (body : CreateOrderBody) : CreateResult × DB :=
  match body.items with
  | none => ({ status := 400, message := "Order must contain at least one item", order := none }, db)
  | some its =>
    if its.isEmpty then
      ({ status := 400, message := "Order must contain at least one item", order := none }, db)
    else
      match findCustomer db userId with
      | none => ({ status := 404, message := "Customer not found", order := none }, db)
      | some customer =>
        match buildOrderItems db its with
        | .error msg => ({ status := 400, message := msg, order := none }, db)
        | .ok orderItems =>
          if body.orderType == some "delivery" && !deliveryAddrValid body.deliveryAddress then
            ({ status := 400,
               message := "Delivery address (street and city) is required for delivery orders",
               order := none }, db)
          else
            persistOrder d now notifyOk db customer (orderDataOf db customer orderItems body now)

/-- Response of GET /orders/track/:orderNumber. The constructors carry
exactly the fields of the corresponding JSON bodies: the not-found and
forbidden answers carry a message only, the success answer carries the
projected order summary. -/
inductive TrackResult where
  | notFound (message : String)
  | forbidden (message : String)
  | ok (orderNumber : Option String) (customerName : String) (orderStatus : String)
      (createdAt : Nat) (total : Nat) (items : List OrderItem)
      (orderType : String) (deliveryAddress : Option DeliveryAddress)
  deriving Repr, DecidableEq

/-- GET /orders/track/:orderNumber with optional phone query parameter.
The phone guard fires only when the supplied phone is truthy (nonempty)
and differs from the stored customerPhone. -/
def trackOrder (db : DB) (num : String) (phone : Option String) : TrackResult :=
  match findOrderByNumber db num with
  | none => .notFound "Order not found"
  | some o =>
    match phone with
    | some p =>
      if p != "" && o.customerPhone != p then
        .forbidden "Invalid phone number for this order"
      else
        .ok o.orderNumber o.customerName o.orderStatus o.createdAt o.total
           o.items o.orderType o.deliveryAddress
    | none =>
      .ok o.orderNumber o.customerName o.orderStatus o.createdAt o.total
         o.items o.orderType o.deliveryAddress

/-- Result of the two PATCH routes: HTTP status, message, and the saved
order when the response echoes one. -/
structure PatchResult where
  status : Nat
  message : String
  order : Option Order
  deriving Repr, DecidableEq

/-- The eight order-status values accepted by PATCH /orders/:id/status. -/
def validStatuses : List String :=
  ["Pending", "Confirmed", "Preparing", "Ready", "Out for Delivery",
   "Delivered", "Completed", "Cancelled"]

/-- The four payment-status values accepted by PATCH /orders/:id/payment. -/
def validPaymentStatuses : List String :=
  ["Pending", "Paid", "Failed", "Refunded"]

/-- PATCH /orders/:id/status. Role gate, status whitelist, lookup, then
mutate orderStatus and save (running both schema hooks); the notification
is emitted with type info, and a notification-storage throw falls into
the catch block, answering 500 after the order write has persisted. -/
def setOrderStatus (d : DateParts) (now : Nat) (notifyOk : Bool)
    (db : DB) (role : String) (orderId : Nat) (status : Option String) :
    PatchResult × DB :=
  if role != "admin" && role != "manager" then
    ({ status := 403, message := "Access denied", order := none }, db)
  else
    match status with
    | none => ({ status := 400, message := "Invalid status", order := none }, db)
    | some s =>
      if s ∉ validStatuses then
        ({ status := 400, message := "Invalid status", order := none }, db)
      else
        match findOrderById db orderId with
        | none => ({ status := 404, message := "Order not found", order := none }, db)
        | some o =>
          let saved := saveHooks d now db.orders.length { o with orderStatus := s }
          let db1 : DB :=
            { db with orders := db.orders.map (fun x => if x.id = orderId then saved else x) }
          if notifyOk then
            let notif : Notification :=
              { title := "📦 Order Status Updated"
                message := "Order #" ++ (saved.orderNumber).getD "" ++ " is now " ++ s
                    ++ "\nItems: " ++ itemsListText saved.items
                type := "info", read := false, createdAt := now }
            ({ status := 200, message := "Order status updated", order := some saved },
             { db1 with notifications := db1.notifications ++ [notif] })
          else
            ({ status := 500, message := "notification storage failure", order := none }, db1)

/-- PATCH /orders/:id/payment. Role gate, payment-status whitelist,
lookup, then mutate paymentStatus (and mpesaReceipt when truthy) and save;
the notification is tagged success when Paid and warning otherwise, and a
notification-storage throw answers 500 after the order write persisted. -/
def setPaymentStatus (d : DateParts) (now : Nat) (notifyOk : Bool)
    (db : DB) (role : String) (orderId : Nat)
    (paymentStatus : Option String) (mpesaReceipt : Option String) :
    PatchResult × DB :=
  if role != "admin" && role != "manager" then
    ({ status := 403, message := "Access denied", order := none }, db)
  else
    match paymentStatus with
    | none => ({ status := 400, message := "Invalid payment status", order := none }, db)
    | some s =>
      if s ∉ validPaymentStatuses then
        ({ status := 400, message := "Invalid payment status", order := none }, db)
      else
        match findOrderById db orderId with
        | none => ({ status := 404, message := "Order not found", order := none }, db)
        | some o =>
          let o1 : Order :=
            { o with paymentStatus := s,
                     mpesaReceipt :=
                       match keepTruthy mpesaReceipt with
                       | some r => some r
                       | none => o.mpesaReceipt }
          let saved := saveHooks d now db.orders.length o1
          let db1 : DB :=
            { db with orders := db.orders.map (fun x => if x.id = orderId then saved else x) }
          if notifyOk then
            let notif : Notification :=
              { title := if s = "Paid" then "💰 Payment Received" else "⚠️ Payment Update"
                message := "Payment for order #" ++ (saved.orderNumber).getD ""
                    ++ " is now " ++ s ++ "\nTotal: KES " ++ amountText saved.total
                type := if s = "Paid" then "success" else "warning"
                read := false, createdAt := now }
            ({ status := 200, message := "Payment status updated", order := some saved },
             { db1 with notifications := db1.notifications ++ [notif] })
          else
            ({ status := 500, message := "notification storage failure", order := none }, db1)

/-- A later catalog mutation (menu PUT route): overwrite the name and
price of the matching catalog entry. Only the catalog collection is
touched. -/
def updateMenuItem (db : DB) (mid : Nat) (newName : String) (newPrice : Nat) : DB :=
  { db with catalog :=
      db.catalog.map (fun m =>
        if m.id = mid then { m with name := newName, price := newPrice } else m) }

/-! Concrete fixtures used by the witness theorems. -/

/-- A concrete available catalog entry. -/
def menuA : MenuItem :=
  { id := 1, name := "Pilau", price := 500, available := true }

/-- A concrete customer. -/
def custA : Customer :=
  { id := 7, name := "Asha", phone := "0712345678", email := "",
    totalOrders := 0, totalSpent := 0, lastOrderDate := none }

/-- A concrete store holding one catalog entry and one customer. -/
def dbA : DB :=
  { orders := [], catalog := [menuA], customers := [custA],
    notifications := [], nextId := 100 }

/-- A concrete current date. -/
def dA : DateParts := { year := 2025, month := 3, day := 9 }

/-- A concrete valid intake body: two portions of the catalog entry. -/
def bodyA : CreateOrderBody :=
  { items := some [{ menuItemId := some 1, quantity := 2 }],
    orderType := none, paymentMethod := none, deliveryAddress := none,
    notes := none, mpesaCheckoutId := none }

/-- A concrete stored order, as produced by a createOrder on dbA. -/
def orderA : Order :=
  { id := 100, orderNumber := some "ORD2503090001", userId := 7, customerId := 7,
    customerName := "Asha", customerPhone := "0712345678", customerEmail := "",
    items := [{ menuItemId := 1, name := "Pilau", quantity := 2, price := 500, subtotal := 1000 }],
    subtotal := 1000, total := 1000, orderType := "takeaway",
    deliveryAddress := none, paymentMethod := "M-PESA", paymentStatus := "Pending",
    mpesaCheckoutId := none, mpesaReceipt := none, orderStatus := "Pending",
    notes := "", createdAt := 5, updatedAt := 5 }

/-- A concrete store holding the stored order. -/
def dbB : DB :=
  { orders := [orderA], catalog := [menuA], customers := [custA],
    notifications := [], nextId := 101 }

/-! Consistency predicate for claim C1 and helper lemmas about the two
schema hooks. -/

/-- The totals invariant of the spec: every stored line subtotal is
unit price times quantity, the order subtotal is the sum of the line
subtotals, and total equals subtotal. -/
def totalsConsistent (o : Order) : Prop :=
  (∀ it ∈ o.items, it.subtotal = it.price * it.quantity) ∧
  o.subtotal = (o.items.map (fun it => it.subtotal)).sum ∧
  o.total = o.subtotal

instance (o : Order) : Decidable (totalsConsistent o) := by
  unfold totalsConsistent; infer_instance

theorem sumSubtotals_eq_sum (items : List OrderItem) :
    sumSubtotals items = (items.map (fun it => it.subtotal)).sum := by
  rw [sumSubtotals, List.sum_eq_foldl, ← List.foldl_map]

theorem preValidate_orderNumber_some (d : DateParts) (c : Nat) (o : Order)
    (num : String) (h : o.orderNumber = some num) : preValidate d c o = o := by
  simp [preValidate, h]

theorem preValidate_orderNumber_none (d : DateParts) (c : Nat) (o : Order)
    (h : o.orderNumber = none) :
    preValidate d c o = { o with orderNumber := some (genOrderNumber d c) } := by
  simp [preValidate, h]

theorem preValidate_items (d : DateParts) (c : Nat) (o : Order) :
    (preValidate d c o).items = o.items := by
  unfold preValidate; cases h : o.orderNumber <;> simp

theorem preSave_orderNumber (now : Nat) (o : Order) :
    (preSave now o).orderNumber = o.orderNumber := by
  unfold preSave; split <;> simp

theorem saveHooks_orderNumber_some (d : DateParts) (now c : Nat) (o : Order)
    (num : String) (h : o.orderNumber = some num) :
    (saveHooks d now c o).orderNumber = some num := by
  rw [saveHooks, preSave_orderNumber, preValidate_orderNumber_some d c o num h, h]

theorem saveHooks_orderNumber_none (d : DateParts) (now c : Nat) (o : Order)
    (h : o.orderNumber = none) :
    (saveHooks d now c o).orderNumber = some (genOrderNumber d c) := by
  rw [saveHooks, preSave_orderNumber, preValidate_orderNumber_none d c o h]

theorem preSave_totalsConsistent (now : Nat) (o : Order) (h : o.items ≠ []) :
    totalsConsistent (preSave now o) := by
  have hlen : o.items.length > 0 := List.length_pos.mpr h
  unfold preSave
  simp only [hlen, if_pos]
  refine ⟨?_, ?_, rfl⟩
  · intro it hit
    simp only [List.mem_map] at hit
    obtain ⟨x, _, rfl⟩ := hit
    exact Nat.mul_comm x.quantity x.price
  · exact sumSubtotals_eq_sum _

theorem saveHooks_totalsConsistent (d : DateParts) (now c : Nat) (o : Order)
    (h : o.items ≠ []) : totalsConsistent (saveHooks d now c o) := by
  apply preSave_totalsConsistent
  rw [preValidate_items]
  exact h

/-! Lemmas about the item-validation loop and the success path of the
create-order route. -/

theorem buildOrderItems_length (db : DB) :
    ∀ rs l, buildOrderItems db rs = Except.ok l → l.length = rs.length := by
  intro rs
  induction rs with
  | nil => intro l h; simp [buildOrderItems] at h; simp [← h]
  | cons r rs ih =>
    intro l h
    unfold buildOrderItems at h
    split at h
    · exact absurd h (by simp)
    · split at h
      · exact absurd h (by simp)
      · split at h
        · exact absurd h (by simp)
        · split at h
          · exact absurd h (by simp)
          · split at h
            · exact absurd h (by simp)
            · rename_i rest hrest
              simp only [Except.ok.injEq] at h
              subst h
              simp [ih rest hrest]

theorem buildOrderItems_snapshot (db : DB) :
    ∀ rs l, buildOrderItems db rs = Except.ok l →
      ∀ it ∈ l, ∃ mi ∈ db.catalog, it.menuItemId = mi.id ∧
        it.name = mi.name ∧ it.price = mi.price := by
  intro rs
  induction rs with
  | nil =>
    intro l h
    simp only [buildOrderItems] at h
    injection h with h
    subst h
    intro it hit
    cases hit
  | cons r rs ih =>
    intro l h
    unfold buildOrderItems at h
    split at h
    · exact absurd h (by simp)
    · split at h
      · exact absurd h (by simp)
      · split at h
        · exact absurd h (by simp)
        · rename_i mid hmid mi hmi
          split at h
          · exact absurd h (by simp)
          · split at h
            · exact absurd h (by simp)
            · rename_i rest hrest
              simp only [Except.ok.injEq] at h
              subst h
              intro it hit
              rcases List.mem_cons.mp hit with hhd | htl
              · subst hhd
                exact ⟨mi, List.mem_of_find?_eq_some hmi, rfl, rfl, rfl⟩
              · exact ih rest hrest it htl

theorem buildOrderItems_unresolved (db : DB) :
    ∀ rs, (∃ r ∈ rs, ∃ mid, r.menuItemId = some mid ∧ findMenuItem db mid = none) →
      ∃ e, buildOrderItems db rs = Except.error e := by
  intro rs
  induction rs with
  | nil => intro h; simp at h
  | cons r rs ih =>
    intro h
    by_cases hguard : (r.menuItemId.isNone || r.quantity == 0) = true
    · exact ⟨"Each item must have menuItemId and quantity", by
        simp only [buildOrderItems, hguard, if_true]⟩
    · rcases h with ⟨r0, hr0, mid0, hmid0, hfind0⟩
      rcases List.mem_cons.mp hr0 with rfl | htl
      · refine ⟨"Item with ID " ++ toString mid0 ++ " not found", ?_⟩
        simp [hmid0] at hguard
        simp [buildOrderItems, hmid0, hfind0, hguard]
      · cases hmid : r.menuItemId with
        | none => exact absurd (by simp [hmid]) hguard
        | some mid =>
          simp [hmid] at hguard
          cases hfind : findMenuItem db mid with
          | none =>
            refine ⟨"Item with ID " ++ toString mid ++ " not found", ?_⟩
            simp [buildOrderItems, hmid, hfind, hguard]
          | some mi =>
            by_cases hav : mi.available = true
            · obtain ⟨e, he⟩ := ih ⟨r0, htl, mid0, hmid0, hfind0⟩
              refine ⟨e, ?_⟩
              simp [buildOrderItems, hmid, hfind, hav, hguard, he]
            · simp only [Bool.not_eq_true] at hav
              refine ⟨mi.name ++ " is not available", ?_⟩
              simp [buildOrderItems, hmid, hfind, hav, hguard]

theorem createOrder_success (d : DateParts) (now : Nat) (nOk : Bool) (db : DB)
    (uid : Nat) (body : CreateOrderBody) (its : List OrderReq)
    (customer : Customer) (orderItems : List OrderItem)
    (hit : body.items = some its) (hne : its.isEmpty = false)
    (hc : findCustomer db uid = some customer)
    (hb : buildOrderItems db its = Except.ok orderItems)
    (hd : (body.orderType == some "delivery" && !deliveryAddrValid body.deliveryAddress) = false) :
    createOrder d now nOk db uid body =
      persistOrder d now nOk db customer (orderDataOf db customer orderItems body now) := by
  simp [createOrder, hit, hne, hc, hb, hd]

theorem persistOrder_orders (d : DateParts) (now : Nat) (nOk : Bool) (db : DB)
    (customer : Customer) (o : Order) :
    (persistOrder d now nOk db customer o).2.orders
      = db.orders ++ [saveHooks d now db.orders.length o] := by
  unfold persistOrder; cases nOk <;> simp

theorem persistOrder_notifications_fail (d : DateParts) (now : Nat) (db : DB)
    (customer : Customer) (o : Order) :
    (persistOrder d now false db customer o).2.notifications = db.notifications := by
  simp [persistOrder]

theorem persistOrder_fail_result (d : DateParts) (now : Nat) (db : DB)
    (customer : Customer) (o : Order) :
    (persistOrder d now false db customer o).1
      = { status := 500, message := "Failed to create order", order := none } := by
  simp [persistOrder]

theorem persistOrder_ok_result (d : DateParts) (now : Nat) (db : DB)
    (customer : Customer) (o : Order) :
    (persistOrder d now true db customer o).1
      = { status := 201, message := "Order created successfully",
          order := some (saveHooks d now db.orders.length o) } := by
  simp [persistOrder]

/-- On a year between 2000 and 2099 the last two characters of the decimal
rendering are the zero-padded last two decimal digits. -/
theorem takeLast2_toString_year (y : Nat) (h1 : 2000 ≤ y) (h2 : y < 2100) :
    takeLast2 (toString y) = padStart 2 '0' (toString (y % 100)) := by
  obtain ⟨k, rfl⟩ := Nat.exists_eq_add_of_le h1
  have hk : k < 100 := by omega
  clear h1 h2
  revert hk
  revert k
  decide

/-- More concrete bodies for witnesses and counterexamples. -/
def bodyEmptyItems : CreateOrderBody :=
  { items := some [], orderType := none, paymentMethod := none,
    deliveryAddress := none, notes := none, mpesaCheckoutId := none }

/-- A body whose single line item references an id absent from dbA. -/
def bodyBadId : CreateOrderBody :=
  { items := some [{ menuItemId := some 42, quantity := 1 }],
    orderType := none, paymentMethod := none, deliveryAddress := none,
    notes := none, mpesaCheckoutId := none }

/-- C7: an intake request whose items array is empty or absent fails with
InvalidInput (HTTP 400) and the whole store is returned unchanged: no
order, no notification and no customer-stat mutation. -/
theorem createOrder_empty_items_rejected
    (d : DateParts) (now : Nat) (nOk : Bool) (db : DB) (uid : Nat)
    (body : CreateOrderBody)
    (h : body.items = none ∨ body.items = some []) :
    createOrder d now nOk db uid body =
      ({ status := 400, message := "Order must contain at least one item",
         order := none }, db) := by
  rcases h with h | h <;> simp [createOrder, h]

/-- Witness for C7 at a concrete store and an empty items array. -/
theorem createOrder_empty_items_rejected_witness :
    bodyEmptyItems.items = some [] ∧
    createOrder dA 5 true dbA 7 bodyEmptyItems =
      ({ status := 400, message := "Order must contain at least one item",
         order := none }, dbA) :=
  ⟨rfl, createOrder_empty_items_rejected dA 5 true dbA 7 bodyEmptyItems (Or.inr rfl)⟩

/-- C9 counterexample: the phone guard tests truthiness first, so a
supplied empty-string phone that differs from the stored customerPhone is
answered with the full order summary, not with Forbidden. -/
theorem trackOrder_empty_phone_not_forbidden :
    orderA.customerPhone ≠ "" ∧
    trackOrder dbB "ORD2503090001" (some "") =
      TrackResult.ok (some "ORD2503090001") "Asha" "Pending" 5 1000
        orderA.items "takeaway" none := by
  constructor
  · decide
  · rfl

/-- C9 (amended): a track request that resolves an order and supplies a
nonempty phone different from the stored customerPhone is answered with
Forbidden, whose body carries only the message field. -/
theorem trackOrder_phone_mismatch_forbidden
    (db : DB) (num : String) (p : String) (o : Order)
    (hfind : findOrderByNumber db num = some o)
    (hp : p ≠ "") (hne : o.customerPhone ≠ p) :
    trackOrder db num (some p) =
      TrackResult.forbidden "Invalid phone number for this order" := by
  simp [trackOrder, hfind, hp, hne]

/-- Witness for the amended C9 at a concrete store and phone. -/
theorem trackOrder_phone_mismatch_forbidden_witness :
    findOrderByNumber dbB "ORD2503090001" = some orderA ∧
    ("0700" : String) ≠ "" ∧ orderA.customerPhone ≠ "0700" ∧
    trackOrder dbB "ORD2503090001" (some "0700") =
      TrackResult.forbidden "Invalid phone number for this order" :=
  ⟨by decide, by decide, by decide,
   trackOrder_phone_mismatch_forbidden dbB "ORD2503090001" "0700" orderA
     (by decide) (by decide) (by decide)⟩

/-- C6 counterexample: a line item whose menuItemId resolves to nothing is
answered with HTTP 400, not with the 404 stated by the claim. -/
theorem createOrder_unknown_item_is_400_not_404 :
    findMenuItem dbA 42 = none ∧
    (createOrder dA 5 true dbA 7 bodyBadId).1.status = 400 ∧
    (createOrder dA 5 true dbA 7 bodyBadId).1.status ≠ 404 ∧
    (createOrder dA 5 true dbA 7 bodyBadId).2 = dbA := by
  refine ⟨by decide, by decide, by decide, by decide⟩

/-- C6 (amended): a createOrder request containing a line item whose
menuItemId does not resolve to any catalog entry fails with HTTP 400 with
a message body and leaves the store unchanged: no order is created. -/
theorem createOrder_unknown_item_rejected
    (d : DateParts) (now : Nat) (nOk : Bool) (db : DB) (uid : Nat)
    (body : CreateOrderBody) (its : List OrderReq) (customer : Customer)
    (hit : body.items = some its)
    (hc : findCustomer db uid = some customer)
    (hbad : ∃ r ∈ its, ∃ mid, r.menuItemId = some mid ∧ findMenuItem db mid = none) :
    (createOrder d now nOk db uid body).1.status = 400 ∧
    (createOrder d now nOk db uid body).2 = db := by
  obtain ⟨e, he⟩ := buildOrderItems_unresolved db its hbad
  have hne : its.isEmpty = false := by
    rcases hbad with ⟨r, hr, _⟩
    cases its
    · cases hr
    · rfl
  constructor <;> simp [createOrder, hit, hne, hc, he]

/-- Witness for the amended C6 at a concrete store and unknown id. -/
theorem createOrder_unknown_item_rejected_witness :
    bodyBadId.items = some [{ menuItemId := some 42, quantity := 1 }] ∧
    findCustomer dbA 7 = some custA ∧
    findMenuItem dbA 42 = none ∧
    (createOrder dA 5 true dbA 7 bodyBadId).1.status = 400 ∧
    (createOrder dA 5 true dbA 7 bodyBadId).2 = dbA :=
  ⟨rfl, by decide, by decide,
   (createOrder_unknown_item_rejected dA 5 true dbA 7 bodyBadId
      [{ menuItemId := some 42, quantity := 1 }] custA rfl (by decide)
      ⟨{ menuItemId := some 42, quantity := 1 }, by decide, 42, rfl, by decide⟩).1,
   (createOrder_unknown_item_rejected dA 5 true dbA 7 bodyBadId
      [{ menuItemId := some 42, quantity := 1 }] custA rfl (by decide)
      ⟨{ menuItemId := some 42, quantity := 1 }, by decide, 42, rfl, by decide⟩).2⟩

/-- The pre-save hook rewrites only items, subtotal, total and updatedAt;
every other field is preserved. -/
theorem preSave_preserves (now : Nat) (o : Order) :
    (preSave now o).id = o.id ∧
    (preSave now o).orderNumber = o.orderNumber ∧
    (preSave now o).orderType = o.orderType ∧
    (preSave now o).paymentMethod = o.paymentMethod ∧
    (preSave now o).orderStatus = o.orderStatus ∧
    (preSave now o).paymentStatus = o.paymentStatus ∧
    (preSave now o).customerPhone = o.customerPhone ∧
    (preSave now o).mpesaReceipt = o.mpesaReceipt := by
  unfold preSave; split <;> simp

/-- The pre-validate hook rewrites only orderNumber; every other field is
preserved. -/
theorem preValidate_preserves (d : DateParts) (c : Nat) (o : Order) :
    (preValidate d c o).id = o.id ∧
    (preValidate d c o).orderType = o.orderType ∧
    (preValidate d c o).paymentMethod = o.paymentMethod ∧
    (preValidate d c o).orderStatus = o.orderStatus ∧
    (preValidate d c o).paymentStatus = o.paymentStatus ∧
    (preValidate d c o).customerPhone = o.customerPhone ∧
    (preValidate d c o).mpesaReceipt = o.mpesaReceipt := by
  unfold preValidate; split <;> simp

/-- The items stored by the pre-save hook are the incoming items with each
line subtotal recomputed as quantity times price. -/
theorem preSave_items (now : Nat) (o : Order) :
    (preSave now o).items
      = o.items.map (fun it => { it with subtotal := it.quantity * it.price }) := by
  unfold preSave
  split
  · rfl
  · rename_i h
    have : o.items = [] := by
      cases hi : o.items
      · rfl
      · rw [hi] at h; simp at h
    simp [this]

theorem saveHooks_items (d : DateParts) (now c : Nat) (o : Order) :
    (saveHooks d now c o).items
      = o.items.map (fun it => { it with subtotal := it.quantity * it.price }) := by
  rw [saveHooks, preSave_items, preValidate_items]

theorem saveHooks_orderType (d : DateParts) (now c : Nat) (o : Order) :
    (saveHooks d now c o).orderType = o.orderType := by
  rw [saveHooks, (preSave_preserves now _).2.2.1, (preValidate_preserves d c o).2.1]

theorem saveHooks_paymentMethod (d : DateParts) (now c : Nat) (o : Order) :
    (saveHooks d now c o).paymentMethod = o.paymentMethod := by
  rw [saveHooks, (preSave_preserves now _).2.2.2.1, (preValidate_preserves d c o).2.2.1]

theorem saveHooks_orderStatus (d : DateParts) (now c : Nat) (o : Order) :
    (saveHooks d now c o).orderStatus = o.orderStatus := by
  rw [saveHooks, (preSave_preserves now _).2.2.2.2.1, (preValidate_preserves d c o).2.2.2.1]

/-- C2: the order persisted by a valid intake over a store holding n order
documents carries the order number ORD, the two-digit year, month and day
of the current date, then n+1 zero-padded to four digits. -/
theorem createOrder_orderNumber_format
    (d : DateParts) (now : Nat) (nOk : Bool) (db : DB) (uid : Nat)
    (body : CreateOrderBody) (its : List OrderReq) (customer : Customer)
    (orderItems : List OrderItem)
    (hy1 : 2000 ≤ d.year) (hy2 : d.year < 2100)
    (hit : body.items = some its) (hne : its.isEmpty = false)
    (hc : findCustomer db uid = some customer)
    (hb : buildOrderItems db its = Except.ok orderItems)
    (hd : (body.orderType == some "delivery" && !deliveryAddrValid body.deliveryAddress) = false) :
    ∃ sv, (createOrder d now nOk db uid body).2.orders = db.orders ++ [sv] ∧
      sv.orderNumber = some ("ORD"
          ++ padStart 2 '0' (toString (d.year % 100))
          ++ padStart 2 '0' (toString d.month)
          ++ padStart 2 '0' (toString d.day)
          ++ padStart 4 '0' (toString (db.orders.length + 1))) := by
  rw [createOrder_success d now nOk db uid body its customer orderItems hit hne hc hb hd]
  refine ⟨_, persistOrder_orders d now nOk db customer _, ?_⟩
  rw [saveHooks_orderNumber_none d now db.orders.length _ rfl]
  rw [genOrderNumber, takeLast2_toString_year d.year hy1 hy2]

/-- Witness for C2 at a concrete date and store with zero orders. -/
theorem createOrder_orderNumber_format_witness :
    (2000 ≤ dA.year ∧ dA.year < 2100 ∧ bodyA.items = some [{ menuItemId := some 1, quantity := 2 }] ∧
     findCustomer dbA 7 = some custA ∧ dbA.orders.length = 0) ∧
    ∃ sv, (createOrder dA 5 true dbA 7 bodyA).2.orders = dbA.orders ++ [sv] ∧
      sv.orderNumber = some ("ORD"
          ++ padStart 2 '0' (toString (dA.year % 100))
          ++ padStart 2 '0' (toString dA.month)
          ++ padStart 2 '0' (toString dA.day)
          ++ padStart 4 '0' (toString (dbA.orders.length + 1))) :=
  ⟨⟨by decide, by decide, rfl, by decide, rfl⟩,
   createOrder_orderNumber_format dA 5 true dbA 7 bodyA
     [{ menuItemId := some 1, quantity := 2 }] custA
     [{ menuItemId := 1, name := "Pilau", quantity := 2, price := 500, subtotal := 1000 }]
     (by decide) (by decide) rfl (by decide) (by decide) rfl (by decide)⟩

/-- C10: a valid intake that omits orderType yields a stored order of type
takeaway, and one that omits paymentMethod yields payment method M-PESA. -/
theorem createOrder_defaults
    (d : DateParts) (now : Nat) (nOk : Bool) (db : DB) (uid : Nat)
    (body : CreateOrderBody) (its : List OrderReq) (customer : Customer)
    (orderItems : List OrderItem)
    (hit : body.items = some its) (hne : its.isEmpty = false)
    (hc : findCustomer db uid = some customer)
    (hb : buildOrderItems db its = Except.ok orderItems)
    (hd : (body.orderType == some "delivery" && !deliveryAddrValid body.deliveryAddress) = false) :
    ∃ sv, (createOrder d now nOk db uid body).2.orders = db.orders ++ [sv] ∧
      (body.orderType = none → sv.orderType = "takeaway") ∧
      (body.paymentMethod = none → sv.paymentMethod = "M-PESA") := by
  rw [createOrder_success d now nOk db uid body its customer orderItems hit hne hc hb hd]
  refine ⟨_, persistOrder_orders d now nOk db customer _, ?_, ?_⟩
  · intro ht
    rw [saveHooks_orderType]
    simp [orderDataOf, orElseStr, ht]
  · intro hp
    rw [saveHooks_paymentMethod]
    simp [orderDataOf, orElseStr, hp]

/-- Witness for C10 at a concrete body omitting both fields. -/
theorem createOrder_defaults_witness :
    (bodyA.orderType = none ∧ bodyA.paymentMethod = none ∧
     findCustomer dbA 7 = some custA) ∧
    ∃ sv, (createOrder dA 5 true dbA 7 bodyA).2.orders = dbA.orders ++ [sv] ∧
      (bodyA.orderType = none → sv.orderType = "takeaway") ∧
      (bodyA.paymentMethod = none → sv.paymentMethod = "M-PESA") :=
  ⟨⟨rfl, rfl, by decide⟩,
   createOrder_defaults dA 5 true dbA 7 bodyA
     [{ menuItemId := some 1, quantity := 2 }] custA
     [{ menuItemId := 1, name := "Pilau", quantity := 2, price := 500, subtotal := 1000 }]
     rfl (by decide) (by decide) rfl (by decide)⟩

/-- C4: the order persisted by a valid intake snapshots every line item
name and unit price from the catalog as it stood at intake time, and a
later catalog update (of any item, to any new name and price) leaves the
stored orders, hence the order totals, untouched. -/
theorem createOrder_snapshot_immune_to_catalog_change
    (d : DateParts) (now : Nat) (nOk : Bool) (db : DB) (uid : Nat)
    (body : CreateOrderBody) (its : List OrderReq) (customer : Customer)
    (orderItems : List OrderItem)
    (hit : body.items = some its) (hne : its.isEmpty = false)
    (hc : findCustomer db uid = some customer)
    (hb : buildOrderItems db its = Except.ok orderItems)
    (hd : (body.orderType == some "delivery" && !deliveryAddrValid body.deliveryAddress) = false) :
    ∃ sv, (createOrder d now nOk db uid body).2.orders = db.orders ++ [sv] ∧
      (∀ it ∈ sv.items, ∃ mi ∈ db.catalog, it.menuItemId = mi.id ∧
        it.name = mi.name ∧ it.price = mi.price) ∧
      (∀ mid newName newPrice,
        (updateMenuItem (createOrder d now nOk db uid body).2 mid newName newPrice).orders
          = db.orders ++ [sv]) := by
  rw [createOrder_success d now nOk db uid body its customer orderItems hit hne hc hb hd]
  refine ⟨_, persistOrder_orders d now nOk db customer _, ?_, ?_⟩
  · intro it hmem
    rw [saveHooks_items] at hmem
    simp only [List.mem_map] at hmem
    obtain ⟨it0, hit0, rfl⟩ := hmem
    have hsnap := buildOrderItems_snapshot db its orderItems hb it0 hit0
    obtain ⟨mi, hmi, h1, h2, h3⟩ := hsnap
    exact ⟨mi, hmi, h1, h2, h3⟩
  · intro mid newName newPrice
    rw [updateMenuItem]
    exact persistOrder_orders d now nOk db customer _

/-- Witness for C4: the snapshot theorem applied at a concrete store. -/
theorem createOrder_snapshot_witness :
    (findCustomer dbA 7 = some custA ∧
     buildOrderItems dbA [{ menuItemId := some 1, quantity := 2 }]
       = Except.ok [{ menuItemId := 1, name := "Pilau", quantity := 2,
                      price := 500, subtotal := 1000 }]) ∧
    ∃ sv, (createOrder dA 5 true dbA 7 bodyA).2.orders = dbA.orders ++ [sv] ∧
      (∀ it ∈ sv.items, ∃ mi ∈ dbA.catalog, it.menuItemId = mi.id ∧
        it.name = mi.name ∧ it.price = mi.price) ∧
      (∀ mid newName newPrice,
        (updateMenuItem (createOrder dA 5 true dbA 7 bodyA).2 mid newName newPrice).orders
          = dbA.orders ++ [sv]) :=
  ⟨⟨by decide, rfl⟩,
   createOrder_snapshot_immune_to_catalog_change dA 5 true dbA 7 bodyA
     [{ menuItemId := some 1, quantity := 2 }] custA
     [{ menuItemId := 1, name := "Pilau", quantity := 2, price := 500, subtotal := 1000 }]
     rfl (by decide) (by decide) rfl (by decide)⟩

/-- Membership in the replace-one-order store shape used by the two PATCH
routes. -/
theorem mem_map_replace (orders : List Order) (oid : Nat) (saved x : Order)
    (hx : x ∈ orders.map (fun y => if y.id = oid then saved else y)) :
    x ∈ orders ∨ x = saved := by
  rcases List.mem_map.mp hx with ⟨y, hy, rfl⟩
  by_cases h : y.id = oid
  · right; simp [h]
  · left; simpa [h]

/-- Branch characterization of the status route: either the store's order
collection is untouched, or the route found the order and replaced it by
its saved (hook-processed) mutation. -/
theorem setOrderStatus_orders_cases (d : DateParts) (now : Nat) (nOk : Bool)
    (db : DB) (role : String) (oid : Nat) (st : Option String) :
    (setOrderStatus d now nOk db role oid st).2.orders = db.orders ∨
    ∃ o s, findOrderById db oid = some o ∧ st = some s ∧
      (setOrderStatus d now nOk db role oid st).2.orders
        = db.orders.map (fun y => if y.id = oid then
            saveHooks d now db.orders.length { o with orderStatus := s } else y) := by
  unfold setOrderStatus
  split
  · exact Or.inl rfl
  · split
    · exact Or.inl rfl
    · rename_i s
      split
      · exact Or.inl rfl
      · split
        · exact Or.inl rfl
        · rename_i o heq
          right
          refine ⟨o, s, heq, rfl, ?_⟩
          cases nOk <;> simp

/-- Branch characterization of the payment route, mirroring
setOrderStatus_orders_cases. -/
theorem setPaymentStatus_orders_cases (d : DateParts) (now : Nat) (nOk : Bool)
    (db : DB) (role : String) (oid : Nat) (ps rcpt : Option String) :
    (setPaymentStatus d now nOk db role oid ps rcpt).2.orders = db.orders ∨
    ∃ o s, findOrderById db oid = some o ∧ ps = some s ∧
      (setPaymentStatus d now nOk db role oid ps rcpt).2.orders
        = db.orders.map (fun y => if y.id = oid then
            saveHooks d now db.orders.length
              { o with paymentStatus := s,
                       mpesaReceipt :=
                         match keepTruthy rcpt with
                         | some r => some r
                         | none => o.mpesaReceipt }
          else y) := by
  unfold setPaymentStatus
  split
  · exact Or.inl rfl
  · split
    · exact Or.inl rfl
    · rename_i s
      split
      · exact Or.inl rfl
      · split
        · exact Or.inl rfl
        · rename_i o heq
          right
          refine ⟨o, s, heq, rfl, ?_⟩
          cases nOk <;> simp

/-- C3: the order number is assigned exactly once. A save of a document
without an order number assigns one before the persist; a save of a
document that already carries one keeps it verbatim; and neither the
status-transition nor the payment-transition route writes an order whose
order number differs from the stored one. -/
theorem orderNumber_assigned_once
    (d : DateParts) (now c : Nat) (nOk : Bool) (db : DB) (role : String)
    (oid : Nat) (st ps rcpt : Option String) (o : Order) (num : String) :
    (∀ o1 : Order, o1.orderNumber = none →
      (saveHooks d now c o1).orderNumber = some (genOrderNumber d c)) ∧
    (∀ o1 : Order, o1.orderNumber = some num →
      (saveHooks d now c o1).orderNumber = some num) ∧
    (findOrderById db oid = some o → o.orderNumber = some num →
      ∀ x ∈ (setOrderStatus d now nOk db role oid st).2.orders,
        x ∈ db.orders ∨ x.orderNumber = some num) ∧
    (findOrderById db oid = some o → o.orderNumber = some num →
      ∀ x ∈ (setPaymentStatus d now nOk db role oid ps rcpt).2.orders,
        x ∈ db.orders ∨ x.orderNumber = some num) := by
  refine ⟨fun o1 h => saveHooks_orderNumber_none d now c o1 h,
          fun o1 h => saveHooks_orderNumber_some d now c o1 num h, ?_, ?_⟩
  · intro hfind hnum x hx
    rcases setOrderStatus_orders_cases d now nOk db role oid st with
      heq | ⟨o2, s, hfind2, hst, heq⟩
    · rw [heq] at hx; exact Or.inl hx
    · rw [heq] at hx
      have ho2 : o2 = o := by
        rw [hfind2] at hfind; exact Option.some.inj hfind
      subst ho2
      rcases mem_map_replace db.orders oid _ x hx with hm | rfl
      · exact Or.inl hm
      · exact Or.inr (saveHooks_orderNumber_some d now db.orders.length _ num hnum)
  · intro hfind hnum x hx
    rcases setPaymentStatus_orders_cases d now nOk db role oid ps rcpt with
      heq | ⟨o2, s, hfind2, hst, heq⟩
    · rw [heq] at hx; exact Or.inl hx
    · rw [heq] at hx
      have ho2 : o2 = o := by
        rw [hfind2] at hfind; exact Option.some.inj hfind
      subst ho2
      rcases mem_map_replace db.orders oid _ x hx with hm | rfl
      · exact Or.inl hm
      · exact Or.inr (saveHooks_orderNumber_some d now db.orders.length _ num hnum)

/-- Witness for C3 at a concrete store, order and transitions. -/
theorem orderNumber_assigned_once_witness :
    ((saveHooks dA 6 0 { orderA with orderNumber := none }).orderNumber
        = some (genOrderNumber dA 0)) ∧
    ((saveHooks dA 6 0 orderA).orderNumber = some "ORD2503090001") ∧
    (findOrderById dbB 100 = some orderA) ∧
    (∀ x ∈ (setOrderStatus dA 6 true dbB "admin" 100 (some "Ready")).2.orders,
        x ∈ dbB.orders ∨ x.orderNumber = some "ORD2503090001") ∧
    (∀ x ∈ (setPaymentStatus dA 6 true dbB "admin" 100 (some "Paid") none).2.orders,
        x ∈ dbB.orders ∨ x.orderNumber = some "ORD2503090001") := by
  have h := orderNumber_assigned_once dA 6 0 true dbB "admin" 100
    (some "Ready") (some "Paid") none orderA "ORD2503090001"
  exact ⟨h.1 _ rfl, h.2.1 _ rfl, by decide,
         h.2.2.1 (by decide) (by decide), h.2.2.2 (by decide) (by decide)⟩

/-- C8: with a staff role, the status route accepts each of the eight
enumerated status values whatever the current status of the order is,
stores the new status, and emits one notification of type info; any value
outside the whitelist is answered with HTTP 400 and no state change. -/
theorem setOrderStatus_behavior
    (d : DateParts) (now : Nat) (db : DB) (role : String) (oid : Nat)
    (s : String) (o : Order)
    (hrole : role = "admin" ∨ role = "manager") :
    (s ∈ validStatuses → findOrderById db oid = some o →
      (setOrderStatus d now true db role oid (some s)).1.status = 200 ∧
      (∃ sv, (setOrderStatus d now true db role oid (some s)).1.order = some sv ∧
        sv.orderStatus = s) ∧
      (∃ n, (setOrderStatus d now true db role oid (some s)).2.notifications
          = db.notifications ++ [n] ∧ n.type = "info")) ∧
    (s ∉ validStatuses →
      setOrderStatus d now true db role oid (some s)
        = ({ status := 400, message := "Invalid status", order := none }, db)) := by
  have hrole' : (role != "admin" && role != "manager") = false := by
    rcases hrole with rfl | rfl <;> decide
  constructor
  · intro hs hfind
    refine ⟨?_, ?_, ?_⟩
    · simp [setOrderStatus, hrole', hs, hfind]
    · exact ⟨saveHooks d now db.orders.length { o with orderStatus := s },
             by simp [setOrderStatus, hrole', hs, hfind],
             saveHooks_orderStatus d now db.orders.length _⟩
    · exact ⟨{ title := "📦 Order Status Updated"
               message := "Order #"
                   ++ (saveHooks d now db.orders.length { o with orderStatus := s }).orderNumber.getD ""
                   ++ " is now " ++ s ++ "\nItems: "
                   ++ itemsListText (saveHooks d now db.orders.length { o with orderStatus := s }).items
               type := "info", read := false, createdAt := now },
             by simp [setOrderStatus, hrole', hs, hfind], rfl⟩
  · intro hs
    simp [setOrderStatus, hrole', hs]

/-- Witness for C8 at a concrete order, one accepted and one rejected
status value. -/
theorem setOrderStatus_behavior_witness :
    ("Ready" ∈ validStatuses ∧
     findOrderById dbB 100 = some orderA ∧
     ((setOrderStatus dA 6 true dbB "admin" 100 (some "Ready")).1.status = 200 ∧
      (∃ sv, (setOrderStatus dA 6 true dbB "admin" 100 (some "Ready")).1.order = some sv ∧
        sv.orderStatus = "Ready") ∧
      (∃ n, (setOrderStatus dA 6 true dbB "admin" 100 (some "Ready")).2.notifications
          = dbB.notifications ++ [n] ∧ n.type = "info"))) ∧
    ("Bogus" ∉ validStatuses ∧
     setOrderStatus dA 6 true dbB "admin" 100 (some "Bogus")
       = ({ status := 400, message := "Invalid status", order := none }, dbB)) :=
  ⟨⟨by decide, by decide,
    (setOrderStatus_behavior dA 6 dbB "admin" 100 "Ready" orderA (Or.inl rfl)).1
      (by decide) (by decide)⟩,
   ⟨by decide,
    (setOrderStatus_behavior dA 6 dbB "admin" 100 "Bogus" orderA (Or.inl rfl)).2
      (by decide)⟩⟩

/-- Branch characterization of the create-order route: either the store is
answered without any new order, or exactly one saved order satisfying the
totals invariant is appended. -/
theorem createOrder_orders_cases (d : DateParts) (now : Nat) (nOk : Bool)
    (db : DB) (uid : Nat) (body : CreateOrderBody) :
    (createOrder d now nOk db uid body).2.orders = db.orders ∨
    ∃ sv, (createOrder d now nOk db uid body).2.orders = db.orders ++ [sv] ∧
      totalsConsistent sv := by
  unfold createOrder
  split
  · exact Or.inl rfl
  · rename_i its heqits
    split
    · exact Or.inl rfl
    · rename_i hne
      split
      · exact Or.inl rfl
      · rename_i customer heqc
        split
        · exact Or.inl rfl
        · rename_i orderItems heqb
          split
          · exact Or.inl rfl
          · right
            refine ⟨_, persistOrder_orders d now nOk db customer _, ?_⟩
            apply saveHooks_totalsConsistent
            show orderItems ≠ []
            intro h0
            have hlen := buildOrderItems_length db its orderItems heqb
            rw [h0] at hlen
            have hits : its = [] := List.eq_nil_of_length_eq_zero hlen.symm
            subst hits
            exact hne rfl

/-- C1: after every successful save of an order through the create-order
route, the status route or the payment route, every order now stored is
either an untouched pre-existing document or satisfies the totals
invariant: each line subtotal is unit price times quantity, subtotal is
the sum of the line subtotals, and total equals subtotal. -/
theorem totals_consistent_after_every_save
    (d : DateParts) (now : Nat) (nOk : Bool) (db : DB) (uid oid : Nat)
    (body : CreateOrderBody) (role : String) (st ps rcpt : Option String)
    (hdb : ∀ o ∈ db.orders, o.items ≠ []) :
    (∀ x ∈ (createOrder d now nOk db uid body).2.orders,
        x ∈ db.orders ∨ totalsConsistent x) ∧
    (∀ x ∈ (setOrderStatus d now nOk db role oid st).2.orders,
        x ∈ db.orders ∨ totalsConsistent x) ∧
    (∀ x ∈ (setPaymentStatus d now nOk db role oid ps rcpt).2.orders,
        x ∈ db.orders ∨ totalsConsistent x) := by
  refine ⟨?_, ?_, ?_⟩
  · intro x hx
    rcases createOrder_orders_cases d now nOk db uid body with heq | ⟨sv, heq, hcons⟩
    · rw [heq] at hx; exact Or.inl hx
    · rw [heq] at hx
      rcases List.mem_append.mp hx with h | h
      · exact Or.inl h
      · have := List.mem_singleton.mp h
        subst this
        exact Or.inr hcons
  · intro x hx
    rcases setOrderStatus_orders_cases d now nOk db role oid st with
      heq | ⟨o, s, hfind, hst, heq⟩
    · rw [heq] at hx; exact Or.inl hx
    · rw [heq] at hx
      rcases mem_map_replace db.orders oid _ x hx with hm | rfl
      · exact Or.inl hm
      · refine Or.inr (saveHooks_totalsConsistent d now db.orders.length _ ?_)
        exact hdb o (List.mem_of_find?_eq_some hfind)
  · intro x hx
    rcases setPaymentStatus_orders_cases d now nOk db role oid ps rcpt with
      heq | ⟨o, s, hfind, hps, heq⟩
    · rw [heq] at hx; exact Or.inl hx
    · rw [heq] at hx
      rcases mem_map_replace db.orders oid _ x hx with hm | rfl
      · exact Or.inl hm
      · refine Or.inr (saveHooks_totalsConsistent d now db.orders.length _ ?_)
        exact hdb o (List.mem_of_find?_eq_some hfind)

/-- Witness for C1 at a concrete store, intake and both transitions. -/
theorem totals_consistent_after_every_save_witness :
    (∀ o ∈ dbB.orders, o.items ≠ []) ∧
    ((∀ x ∈ (createOrder dA 5 true dbB 7 bodyA).2.orders,
        x ∈ dbB.orders ∨ totalsConsistent x) ∧
     (∀ x ∈ (setOrderStatus dA 5 true dbB "admin" 100 (some "Ready")).2.orders,
        x ∈ dbB.orders ∨ totalsConsistent x) ∧
     (∀ x ∈ (setPaymentStatus dA 5 true dbB "admin" 100 (some "Paid") none).2.orders,
        x ∈ dbB.orders ∨ totalsConsistent x)) :=
  ⟨by decide,
   totals_consistent_after_every_save dA 5 true dbB 7 100 bodyA "admin"
     (some "Ready") (some "Paid") none (by decide)⟩

/-- C5 counterexample: on the same concrete valid intake the route answers
201 when the notification write succeeds, but answers 500 when it fails,
although the order write has already been persisted in both runs: the
notification failure is not swallowed, contrary to the claim. -/
theorem createOrder_notify_failure_returns_500 :
    (createOrder dA 5 true dbA 7 bodyA).1.status = 201 ∧
    (createOrder dA 5 false dbA 7 bodyA).1.status = 500 ∧
    (createOrder dA 5 false dbA 7 bodyA).2.orders ≠ [] ∧
    (setOrderStatus dA 6 false dbB "admin" 100 (some "Ready")).1.status = 500 := by
  refine ⟨by decide, by decide, by decide, by decide⟩

/-- C5 (amended): when the persistence steps of an order operation succeed
but the notification write fails, the operation reports failure (HTTP 500)
to the caller even though the order write is already committed; only the
notification record is missing. -/
theorem notification_failure_not_swallowed
    (d : DateParts) (now : Nat) (db : DB) (uid oid : Nat)
    (body : CreateOrderBody) (its : List OrderReq) (customer : Customer)
    (orderItems : List OrderItem) (role : String) (s sp : String) (o : Order)
    (rcpt : Option String) :
    (body.items = some its → its.isEmpty = false →
      findCustomer db uid = some customer →
      buildOrderItems db its = Except.ok orderItems →
      (body.orderType == some "delivery" && !deliveryAddrValid body.deliveryAddress) = false →
      (createOrder d now false db uid body).1.status = 500 ∧
      (∃ sv, (createOrder d now false db uid body).2.orders = db.orders ++ [sv]) ∧
      (createOrder d now false db uid body).2.notifications = db.notifications) ∧
    ((role = "admin" ∨ role = "manager") → s ∈ validStatuses →
      findOrderById db oid = some o →
      (setOrderStatus d now false db role oid (some s)).1.status = 500 ∧
      (∃ sv, (setOrderStatus d now false db role oid (some s)).2.orders
          = db.orders.map (fun y => if y.id = oid then sv else y) ∧
        sv.orderStatus = s) ∧
      (setOrderStatus d now false db role oid (some s)).2.notifications
          = db.notifications) ∧
    ((role = "admin" ∨ role = "manager") → sp ∈ validPaymentStatuses →
      findOrderById db oid = some o →
      (setPaymentStatus d now false db role oid (some sp) rcpt).1.status = 500 ∧
      (∃ sv, (setPaymentStatus d now false db role oid (some sp) rcpt).2.orders
          = db.orders.map (fun y => if y.id = oid then sv else y) ∧
        sv.paymentStatus = sp) ∧
      (setPaymentStatus d now false db role oid (some sp) rcpt).2.notifications
          = db.notifications) := by
  refine ⟨?_, ?_, ?_⟩
  · intro hit hne hc hb hd
    rw [createOrder_success d now false db uid body its customer orderItems hit hne hc hb hd]
    exact ⟨by rw [persistOrder_fail_result], ⟨_, persistOrder_orders d now false db customer _⟩,
           persistOrder_notifications_fail d now db customer _⟩
  · intro hrole hs hfind
    have hrole' : (role != "admin" && role != "manager") = false := by
      rcases hrole with rfl | rfl <;> decide
    refine ⟨?_, ?_, ?_⟩
    · simp [setOrderStatus, hrole', hs, hfind]
    · refine ⟨saveHooks d now db.orders.length { o with orderStatus := s }, ?_, ?_⟩
      · simp [setOrderStatus, hrole', hs, hfind]
      · exact saveHooks_orderStatus d now db.orders.length _
    · simp [setOrderStatus, hrole', hs, hfind]
  · intro hrole hs hfind
    have hrole' : (role != "admin" && role != "manager") = false := by
      rcases hrole with rfl | rfl <;> decide
    refine ⟨?_, ?_, ?_⟩
    · simp [setPaymentStatus, hrole', hs, hfind]
    · refine ⟨saveHooks d now db.orders.length
        { o with paymentStatus := sp,
                 mpesaReceipt :=
                   match keepTruthy rcpt with
                   | some r => some r
                   | none => o.mpesaReceipt }, ?_, ?_⟩
      · simp [setPaymentStatus, hrole', hs, hfind]
      · rw [saveHooks, (preSave_preserves now _).2.2.2.2.2.1,
            (preValidate_preserves d db.orders.length _).2.2.2.2.1]
    · simp [setPaymentStatus, hrole', hs, hfind]

/-- Witness for the amended C5 at a concrete store. -/
theorem notification_failure_not_swallowed_witness :
    (bodyA.items = some [{ menuItemId := some 1, quantity := 2 }] ∧
     findCustomer dbB 7 = some custA ∧ findOrderById dbB 100 = some orderA) ∧
    ((createOrder dA 5 false dbB 7 bodyA).1.status = 500 ∧
     (∃ sv, (createOrder dA 5 false dbB 7 bodyA).2.orders = dbB.orders ++ [sv]) ∧
     (createOrder dA 5 false dbB 7 bodyA).2.notifications = dbB.notifications) ∧
    ((setOrderStatus dA 6 false dbB "admin" 100 (some "Ready")).1.status = 500 ∧
     (setOrderStatus dA 6 false dbB "admin" 100 (some "Ready")).2.notifications
        = dbB.notifications) ∧
    ((setPaymentStatus dA 6 false dbB "admin" 100 (some "Paid") none).1.status = 500 ∧
     (setPaymentStatus dA 6 false dbB "admin" 100 (some "Paid") none).2.notifications
        = dbB.notifications) := by
  have h := notification_failure_not_swallowed dA 5 dbB 7 100 bodyA
    [{ menuItemId := some 1, quantity := 2 }] custA
    [{ menuItemId := 1, name := "Pilau", quantity := 2, price := 500, subtotal := 1000 }]
    "admin" "Ready" "Paid" orderA none
  have h1 := h.1 rfl (by decide) (by decide) rfl (by decide)
  have h2 := notification_failure_not_swallowed dA 6 dbB 7 100 bodyA
    [{ menuItemId := some 1, quantity := 2 }] custA
    [{ menuItemId := 1, name := "Pilau", quantity := 2, price := 500, subtotal := 1000 }]
    "admin" "Ready" "Paid" orderA none
  have h2a := h2.2.1 (Or.inl rfl) (by decide) (by decide)
  have h2b := h2.2.2 (Or.inl rfl) (by decide) (by decide)
  exact ⟨⟨rfl, by decide, by decide⟩, h1, ⟨h2a.1, h2a.2.2⟩, ⟨h2b.1, h2b.2.2⟩⟩

end Resto
